import Mathlib

/-!
Shallow embedding of the AI Logo Animator repository:
the Generation Client (services/geminiService.ts) and the Workflow
Controller (the App component).  Remote services, the file reader and
the host credential capability are modelled as explicit environment
parameters; promise rejection is modelled with Except, and the status
callback of the video generation loop is modelled as an emitted event
trace.
-/

namespace LogoAnimator

/-- Aspect ratio selection, the two values the UI offers: landscape 16:9
and portrait 9:16 (type AspectRatio in types.ts, values used in App). -/
inductive AspectRatio where
  | r16x9
  | r9x16
deriving DecidableEq, Repr

/-- Errors thrown by the Generation Client, distinguished by their
origin; the carried string is the Error message the controller sees. -/
inductive GenError where
  | generationError (msg : String)
  | networkError (msg : String)
deriving DecidableEq, Repr

/-- Message carried by a thrown error (err.message in the controller). -/
def GenError.message : GenError → String
  | .generationError m => m
  | .networkError m => m

/-- JavaScript String.prototype.split with a single-character
separator, modelled on character lists. -/
def splitChars (sep : Char) : List Char → List (List Char)
  | [] => [[]]
  | a :: as =>
    match splitChars sep as with
    | [] => [[]]
    | g :: gs => if a == sep then [] :: g :: gs else (a :: g) :: gs

/-- Body of a data URL: fileToBase64 resolves with
(reader.result as string).split(",")[1]; index 1 may be absent
(undefined) when the string holds no comma, hence the Option. -/
def dataUrlBody (dataUrl : String) : Option String :=
  ((splitChars ',' dataUrl.toList).map String.mk).get? 1

/-- Model of fileToBase64: the environment decides whether the
FileReader read succeeds (resolving with the data URL) or errors;
on success the data-URL body is extracted. -/
def fileToBase64 (readResult : Except String String) : Except String (Option String) :=
  readResult.map dataUrlBody

/-- Image carried in the image-generation service response, exposing
raw base64 bytes (generatedImages[i].image.imageBytes). -/
structure GeneratedImage where
  imageBytes : String
deriving DecidableEq, Repr

/-- Response of ai.models.generateImages: the generatedImages field may
be undefined (none) or a list. -/
structure ImagesResponse where
  generatedImages : Option (List GeneratedImage)
deriving DecidableEq, Repr

/-- Fixed system framing wrapped around the user description in
generateLogoImage. -/
def logoPrompt (description : String) : String :=
  "a professional, modern, vector-style logo for a company. Description: \"" ++
    description ++
    "\". The logo should be on a clean, solid-colored background. Minimalist, flat design."

/-- Request sent by generateLogoImage to the image-generation service. -/
structure ImageRequest where
  model : String
  prompt : String
  numberOfImages : Nat
  outputMimeType : String
  aspect : String
deriving DecidableEq, Repr

/-- Request constructed by generateLogoImage for a given description. -/
def mkImageRequest (description : String) : ImageRequest :=
  { model := "imagen-4.0-generate-001"
    prompt := logoPrompt description
    numberOfImages := 1
    outputMimeType := "image/png"
    aspect := "1:1" }

/-- generateLogoImage: issues one request; if the response carries at
least one image, returns the first image bytes, otherwise throws
"Image generation failed.".  The remote service is the parameter api. -/
def generateLogoImage (api : ImageRequest → ImagesResponse) (description : String) :
    Except GenError String :=
  match (api (mkImageRequest description)).generatedImages with
  | some (img :: _) => Except.ok img.imageBytes
  | some [] => Except.error (GenError.generationError "Image generation failed.")
  | none => Except.error (GenError.generationError "Image generation failed.")

/-- Fixed ordered list of human-readable progress strings cycled by the
video polling loop. -/
def loadingMessages : List String :=
  ["Warming up the animation engine...",
   "Teaching pixels to dance...",
   "Composing a visual symphony...",
   "Rendering the final masterpiece...",
   "Almost there, adding the final sparkle...",
   "Finalizing the sequence...",
   "Polishing the frames..."]

/-- Long-running operation handle: completion flag plus, once complete,
the optional video resource locator
(operation.response?.generatedVideos?[0]?.video?.uri). -/
structure Operation where
  opDone : Bool
  uri : Option String
deriving DecidableEq, Repr

/-- Response of the raw fetch of the video resource locator. -/
structure FetchResponse where
  ok : Bool
  statusText : String
  blob : String
deriving DecidableEq, Repr

/-- Request submitted by generateAnimatedVideo to the video-generation
service. -/
structure VideoRequest where
  model : String
  prompt : String
  imageBytes : String
  mimeType : String
  numberOfVideos : Nat
  resolution : String
  aspect : AspectRatio
deriving DecidableEq, Repr

/-- Request constructed by generateAnimatedVideo. -/
def mkVideoRequest (imageB64 prompt : String) (ar : AspectRatio) : VideoRequest :=
  { model := "veo-3.1-fast-generate-preview"
    prompt := prompt
    imageBytes := imageB64
    mimeType := "image/png"
    numberOfVideos := 1
    resolution := "720p"
    aspect := ar }

/-- Environment of one generateAnimatedVideo run: the submit call
yields the initial Operation, pollResults is the stream of handles the
successive getVideosOperation calls return, fetch is the raw network
fetch, createObjectURL wraps downloaded bytes as a local URL, and
apiKey is process.env.API_KEY read at call time. -/
structure VideoEnv where
  submit : VideoRequest → Operation
  pollResults : List Operation
  fetch : String → FetchResponse
  createObjectURL : String → String
  apiKey : String

/-- Observable effect of the polling loop: a status-callback invocation
or a timer wait (milliseconds). -/
inductive VideoEvent where
  | status (msg : String)
  | wait (ms : Nat)
deriving DecidableEq, Repr

/-- The while-loop of generateAnimatedVideo: while the handle reports
not done, wait 10000 ms, advance messageIndex cyclically, emit the
message, and take the next refreshed handle from the stream.  Returns
none when the stream is exhausted before completion (the loop would
still be polling), otherwise the emitted events and the final handle. -/
def pollEvents : Operation → Nat → List Operation → Option (List VideoEvent × Operation)
  | op, i, stream =>
    if op.opDone then some ([], op)
    else
      match stream with
      | [] => none
      | next :: rest =>
        let i2 := (i + 1) % loadingMessages.length
        match pollEvents next i2 rest with
        | none => none
        | some (evs, fin) =>
          some (VideoEvent.wait 10000 :: VideoEvent.status (loadingMessages.getD i2 "") :: evs, fin)

/-- generateAnimatedVideo: emits the initial status message, submits the
request, runs the polling loop, then inspects the result: no locator
throws a GenerationError; otherwise a final fetching status is emitted,
the locator is fetched with the key appended, a non-ok response throws
a NetworkError, and otherwise the blob is wrapped as an object URL.
Returns none when the poll stream never completes, else the event trace
and the outcome. -/
def generateAnimatedVideo (env : VideoEnv) (imageB64 prompt : String) (ar : AspectRatio) :
    Option (List VideoEvent × Except GenError String) :=
  let op0 := env.submit (mkVideoRequest imageB64 prompt ar)
  let ev0 := VideoEvent.status (loadingMessages.getD 0 "")
  match pollEvents op0 0 env.pollResults with
  | none => none
  | some (evs, fin) =>
    match fin.uri with
    | none =>
      some (ev0 :: evs,
        Except.error (GenError.generationError
          "Video generation operation completed but no video URI was found."))
    | some downloadLink =>
      let resp := env.fetch (downloadLink ++ "&key=" ++ env.apiKey)
      if resp.ok then
        some (ev0 :: evs ++ [VideoEvent.status "Fetching generated video..."],
          Except.ok (env.createObjectURL resp.blob))
      else
        some (ev0 :: evs ++ [VideoEvent.status "Fetching generated video..."],
          Except.error (GenError.networkError
            ("Failed to download video: " ++ resp.statusText)))

/-- Boolean prefix test on character lists (helper for the substring
test the controller performs on error messages). -/
def charsPrefix : List Char → List Char → Bool
  | [], _ => true
  | _ :: _, [] => false
  | a :: as, b :: bs => a == b && charsPrefix as bs

/-- Boolean test that pat occurs somewhere inside s. -/
def charsInfix (pat : List Char) : List Char → Bool
  | [] => charsPrefix pat []
  | c :: rest => charsPrefix pat (c :: rest) || charsInfix pat rest

/-- Model of the JavaScript String.prototype.includes used in the
controller error mapping. -/
def containsSubstr (s pat : String) : Bool :=
  charsInfix pat.toList s.toList

/-- State of the App component: one field per useState hook. -/
structure AppState where
  apiKeySelected : Bool
  logoDescription : String
  animationPrompt : String
  aspect : AspectRatio
  logoImageBase64 : Option String
  generatedVideoUrl : Option String
  isGeneratingLogo : Bool
  isGeneratingVideo : Bool
  videoStatus : String
  error : Option String
deriving DecidableEq, Repr

/-- Initial hook values of the App component; checkApiKey then sets
apiKeySelected from the host capability (true when the capability is
unavailable). -/
def initState (hasKey : Bool) : AppState :=
  { apiKeySelected := hasKey
    logoDescription := ""
    animationPrompt := ""
    aspect := AspectRatio.r16x9
    logoImageBase64 := none
    generatedVideoUrl := none
    isGeneratingLogo := false
    isGeneratingVideo := false
    videoStatus := ""
    error := none }

/-- Workflow stage, derived from the busy flags and artifact presence
exactly as the results column renders them. -/
inductive Stage where
  | NoLogo
  | LogoGenerating
  | LogoReady
  | VideoGenerating
  | VideoReady
deriving DecidableEq, Repr

/-- Stage derivation: busy flags dominate, then the video artifact,
then the logo artifact. -/
def stage (s : AppState) : Stage :=
  if s.isGeneratingLogo then Stage.LogoGenerating
  else if s.isGeneratingVideo then Stage.VideoGenerating
  else if s.generatedVideoUrl.isSome then Stage.VideoReady
  else if s.logoImageBase64.isSome then Stage.LogoReady
  else Stage.NoLogo

/-- handleImageUpload: with no selected file nothing happens; with a
file, the error is cleared and the video artifact is cleared, then the
read runs: on success the logo artifact is set to the data-URL body, on
a read failure the fixed error text is set.  The file argument is the
read outcome the environment produces for the selected file. -/
def handleImageUpload (s : AppState) (file : Option (Except String String)) : AppState :=
  match file with
  | none => s
  | some readResult =>
    let s1 := { s with error := none, generatedVideoUrl := none }
    match fileToBase64 readResult with
    | Except.ok b64 => { s1 with logoImageBase64 := b64 }
    | Except.error _ => { s1 with error := some "Failed to read image file." }

/-- Synchronous prefix of handleGenerateLogo: the empty-description
guard only sets a validation error; otherwise the error is cleared, the
logo busy flag is set and both artifacts are cleared.  The Bool records
whether the remote call is issued. -/
def startLogoAttempt (s : AppState) : AppState × Bool :=
  if s.logoDescription = "" then
    ({ s with error := some "Please enter a description for your logo." }, false)
  else
    ({ s with
        error := none
        isGeneratingLogo := true
        logoImageBase64 := none
        generatedVideoUrl := none }, true)

/-- Continuation of handleGenerateLogo once generateLogoImage settles:
success stores the image, failure sets the stage-prefixed error text,
and the finally clause clears the busy flag. -/
def finishLogo (s : AppState) (result : Except String String) : AppState :=
  let s1 :=
    match result with
    | Except.ok imageB64 => { s with logoImageBase64 := some imageB64 }
    | Except.error msg => { s with error := some ("Logo generation failed: " ++ msg) }
  { s1 with isGeneratingLogo := false }

/-- Whole handleGenerateLogo run with the remote outcome supplied by
the environment; the Bool records whether the remote call was issued. -/
def handleGenerateLogo (s : AppState) (result : Except String String) : AppState × Bool :=
  let (s1, issued) := startLogoAttempt s
  if issued then (finishLogo s1 result, true) else (s1, false)

/-- Synchronous prefix of handleGenerateVideo: the missing-logo and
empty-prompt guards only set a validation error; otherwise the error is
cleared, the video busy flag is set and the video artifact is cleared.
The Bool records whether the remote call is issued. -/
def startVideoAttempt (s : AppState) : AppState × Bool :=
  if s.logoImageBase64.isNone then
    ({ s with error := some "Please generate or upload a logo first." }, false)
  else if s.animationPrompt = "" then
    ({ s with error := some "Please enter a prompt for the animation." }, false)
  else
    ({ s with error := none, isGeneratingVideo := true, generatedVideoUrl := none }, true)

/-- Continuation of handleGenerateVideo once generateAnimatedVideo
settles: success stores the video URL; a failure whose message contains
"Requested entity was not found" sets the credential re-selection error
and resets the credential gate, any other failure sets the
stage-prefixed error text; the finally clause clears the busy flag and
the status line. -/
def finishVideo (s : AppState) (result : Except String String) : AppState :=
  let s1 :=
    match result with
    | Except.ok url => { s with generatedVideoUrl := some url }
    | Except.error msg =>
      if containsSubstr msg "Requested entity was not found" then
        { s with
            error := some "API Key not found or invalid. Please re-select your API Key."
            apiKeySelected := false }
      else
        { s with error := some ("Video generation failed: " ++ msg) }
  { s1 with isGeneratingVideo := false, videoStatus := "" }

/-- Whole handleGenerateVideo run with the remote outcome supplied by
the environment; the Bool records whether the remote call was issued. -/
def handleGenerateVideo (s : AppState) (result : Except String String) : AppState × Bool :=
  let (s1, issued) := startVideoAttempt s
  if issued then (finishVideo s1 result, true) else (s1, false)

/-- Whole handleGenerateVideo run where the remote outcome is produced
by running generateAnimatedVideo in the given environment on the state
fields the handler passes it; none when the poll loop never completes. -/
def runGenerateVideo (s : AppState) (env : VideoEnv) : Option (AppState × Bool) :=
  let (s1, issued) := startVideoAttempt s
  if issued then
    match generateAnimatedVideo env (s.logoImageBase64.getD "") s.animationPrompt s.aspect with
    | none => none
    | some (_, Except.ok url) => some (finishVideo s1 (Except.ok url), true)
    | some (_, Except.error e) => some (finishVideo s1 (Except.error e.message), true)
  else
    some (s1, false)



/-- Atomic steps of the Workflow Controller UI.  Enabledness mirrors
the rendered component: while the credential gate shows, only key
selection is possible; the textareas, the upload input and the two
buttons are enabled exactly when their disabled attributes are false
(the logo button is disabled while either generation runs, the video
button while a video generation runs or no logo is present, the prompt
textarea while no logo is present, and the upload input is never
disabled).  Asynchronous handlers are split into their synchronous
prefix and their settling continuation.  The upload step carries the
FileReader guarantee that a successful readAsDataURL result is a data
URL containing a comma. -/
inductive Step : AppState → AppState → Prop where
  | selectKey (s : AppState) (h : s.apiKeySelected = false) :
      Step s { s with apiKeySelected := true }
  | setDescription (s : AppState) (d : String) (h : s.apiKeySelected = true) :
      Step s { s with logoDescription := d }
  | setPrompt (s : AppState) (p : String) (h : s.apiKeySelected = true)
      (hl : s.logoImageBase64.isSome) :
      Step s { s with animationPrompt := p }
  | setAspect (s : AppState) (a : AspectRatio) (h : s.apiKeySelected = true) :
      Step s { s with aspect := a }
  | upload (s : AppState) (file : Option (Except String String))
      (h : s.apiKeySelected = true)
      (hwf : ∀ d, file = some (Except.ok d) → (dataUrlBody d).isSome) :
      Step s (handleImageUpload s file)
  | logoInvoke (s : AppState) (h : s.apiKeySelected = true)
      (hbl : s.isGeneratingLogo = false) (hbv : s.isGeneratingVideo = false) :
      Step s (startLogoAttempt s).1
  | logoFinish (s : AppState) (result : Except String String)
      (h : s.isGeneratingLogo = true) :
      Step s (finishLogo s result)
  | videoInvoke (s : AppState) (h : s.apiKeySelected = true)
      (hbv : s.isGeneratingVideo = false) (hl : s.logoImageBase64.isSome) :
      Step s (startVideoAttempt s).1
  | videoProgress (s : AppState) (m : String) (h : s.isGeneratingVideo = true) :
      Step s { s with videoStatus := m }
  | videoFinish (s : AppState) (result : Except String String)
      (h : s.isGeneratingVideo = true) :
      Step s (finishVideo s result)

/-- States the controller can reach from startup (checkApiKey resolves
the initial credential flag either way). -/
inductive Reachable : AppState → Prop where
  | init (hasKey : Bool) : Reachable (initState hasKey)
  | step {s t : AppState} : Reachable s → Step s t → Reachable t

/-- Artifact invariant: while a video generation is in flight a logo is
present, and a video artifact is never present without a logo. -/
def ArtifactInv (s : AppState) : Prop :=
  (s.isGeneratingVideo = true → s.logoImageBase64.isSome) ∧
  (s.generatedVideoUrl.isSome → s.logoImageBase64.isSome)

/-- Completion pattern of one polling run: the handle reports not done
exactly n times (the submitted handle first, then refreshed handles
from the stream) and the next refreshed handle is done and equals fin. -/
def completesAfter : Operation → List Operation → Nat → Operation → Prop
  | op, _, 0, fin => op.opDone = true ∧ fin = op
  | op, polls, Nat.succ n, fin =>
    op.opDone = false ∧
      ∃ next rest, polls = next :: rest ∧ completesAfter next rest n fin

/-- Events the polling loop emits during an n-iteration run entered
with current message index i. -/
def pollTrace : Nat → Nat → List VideoEvent
  | 0, _ => []
  | Nat.succ n, i =>
    let i2 := (i + 1) % loadingMessages.length
    VideoEvent.wait 10000 :: VideoEvent.status (loadingMessages.getD i2 "") :: pollTrace n i2

/-- Messages of the status-callback invocations in a trace, in order. -/
def statusTexts (evs : List VideoEvent) : List String :=
  evs.filterMap fun e =>
    match e with
    | VideoEvent.status m => some m
    | VideoEvent.wait _ => none

/-- Wait durations in a trace, in order. -/
def waitTimes (evs : List VideoEvent) : List Nat :=
  evs.filterMap fun e =>
    match e with
    | VideoEvent.wait ms => some ms
    | VideoEvent.status _ => none

/-- Unfolding of the polling loop on a completed handle. -/
theorem pollEvents_done {op : Operation} (h : op.opDone = true) (i : Nat)
    (stream : List Operation) : pollEvents op i stream = some ([], op) := by
  rw [pollEvents.eq_def]
  simp [h]

/-- Unfolding of one iteration of the polling loop. -/
theorem pollEvents_not_done {op : Operation} (h : op.opDone = false) (i : Nat)
    (next : Operation) (rest : List Operation) :
    pollEvents op i (next :: rest) =
      match pollEvents next ((i + 1) % loadingMessages.length) rest with
      | none => none
      | some (evs, fin) =>
        some (VideoEvent.wait 10000 ::
          VideoEvent.status (loadingMessages.getD ((i + 1) % loadingMessages.length) "") :: evs,
          fin) := by
  rw [pollEvents.eq_def]
  simp [h]

/-- A run matching the completion pattern produces exactly the poll
trace and ends on the final handle. -/
theorem pollEvents_completes :
    ∀ (n : Nat) (op : Operation) (polls : List Operation) (fin : Operation) (i : Nat),
      completesAfter op polls n fin → pollEvents op i polls = some (pollTrace n i, fin)
  | 0, op, polls, fin, i, h => by
    obtain ⟨hd, hf⟩ := h
    subst hf
    simp [pollEvents_done hd, pollTrace]
  | Nat.succ n, op, polls, fin, i, h => by
    obtain ⟨hd, next, rest, hp, hc⟩ := h
    subst hp
    rw [pollEvents_not_done hd]
    rw [pollEvents_completes n next rest fin ((i + 1) % loadingMessages.length) hc]
    simp [pollTrace]

/-- Status messages of the poll trace advance cyclically through the
fixed message list. -/
theorem statusTexts_pollTrace :
    ∀ (n i : Nat), statusTexts (pollTrace n i) =
      (List.range n).map
        (fun k => loadingMessages.getD ((i + k + 1) % loadingMessages.length) "")
  | 0, i => by simp [pollTrace, statusTexts]
  | Nat.succ n, i => by
    have ih := statusTexts_pollTrace n ((i + 1) % loadingMessages.length)
    simp only [pollTrace, statusTexts, List.filterMap_cons] at ih ⊢
    rw [List.range_succ_eq_map, List.map_cons, List.map_map]
    refine congrArg₂ _ rfl ?_
    rw [ih]
    refine List.map_congr_left ?_
    intro k _
    have h1 : (i + 1) % loadingMessages.length + k + 1 =
        (i + 1) % loadingMessages.length + (k + 1) := rfl
    rw [h1, Nat.mod_add_mod]
    simp only [Function.comp_apply, Nat.succ_eq_add_one]
    have h2 : i + 1 + (k + 1) = i + (k + 1) + 1 := by omega
    rw [h2]

/-- The poll trace contains exactly one 10000 ms wait per iteration. -/
theorem waitTimes_pollTrace :
    ∀ (n i : Nat), waitTimes (pollTrace n i) = List.replicate n 10000
  | 0, _ => by simp [pollTrace, waitTimes]
  | Nat.succ n, i => by
    have ih := waitTimes_pollTrace n ((i + 1) % loadingMessages.length)
    simp only [pollTrace, waitTimes, List.filterMap_cons] at ih ⊢
    simp [ih, List.replicate_succ]

/-- A completed run whose final handle carries no locator throws the
fixed GenerationError after the initial message and the poll trace. -/
theorem generateAnimatedVideo_no_uri (env : VideoEnv) (imageB64 prompt : String)
    (ar : AspectRatio) (n : Nat) (fin : Operation)
    (h : completesAfter (env.submit (mkVideoRequest imageB64 prompt ar)) env.pollResults n fin)
    (hu : fin.uri = none) :
    generateAnimatedVideo env imageB64 prompt ar =
      some (VideoEvent.status (loadingMessages.getD 0 "") :: pollTrace n 0,
        Except.error (GenError.generationError
          "Video generation operation completed but no video URI was found.")) := by
  unfold generateAnimatedVideo
  simp only [pollEvents_completes n _ _ fin 0 h, hu]

/-- A completed run with a locator emits the final fetching message and
then succeeds or fails according to the fetch response. -/
theorem generateAnimatedVideo_uri (env : VideoEnv) (imageB64 prompt : String)
    (ar : AspectRatio) (n : Nat) (fin : Operation) (u : String)
    (h : completesAfter (env.submit (mkVideoRequest imageB64 prompt ar)) env.pollResults n fin)
    (hu : fin.uri = some u) :
    generateAnimatedVideo env imageB64 prompt ar =
      some (VideoEvent.status (loadingMessages.getD 0 "") :: pollTrace n 0 ++
          [VideoEvent.status "Fetching generated video..."],
        if (env.fetch (u ++ "&key=" ++ env.apiKey)).ok then
          Except.ok (env.createObjectURL (env.fetch (u ++ "&key=" ++ env.apiKey)).blob)
        else
          Except.error (GenError.networkError
            ("Failed to download video: " ++
              (env.fetch (u ++ "&key=" ++ env.apiKey)).statusText))) := by
  unfold generateAnimatedVideo
  by_cases hok : (env.fetch (u ++ "&key=" ++ env.apiKey)).ok
  · simp [pollEvents_completes n _ _ fin 0 h, hu, hok]
  · simp [pollEvents_completes n _ _ fin 0 h, hu, hok]

/-- Every state reachable by the controller satisfies the artifact
invariant. -/
theorem reachable_artifactInv {s : AppState} (h : Reachable s) : ArtifactInv s := by
  induction h with
  | init hasKey => exact ⟨by simp [initState], by simp [initState]⟩
  | step hr hstep ih =>
    rename_i s t
    cases hstep with
    | selectKey h => exact ih
    | setDescription d h => exact ih
    | setPrompt p h hl => exact ih
    | setAspect a h => exact ih
    | upload file h hwf =>
      cases file with
      | none => exact ih
      | some readResult =>
        cases readResult with
        | error e =>
          refine ⟨fun hv => ?_, fun hv => ?_⟩
          · simpa [handleImageUpload, fileToBase64, Except.map] using ih.1 hv
          · simp [handleImageUpload, fileToBase64, Except.map] at hv
        | ok d =>
          refine ⟨fun hv => ?_, fun hv => ?_⟩
          · simpa [handleImageUpload, fileToBase64, Except.map] using hwf d rfl
          · simp [handleImageUpload, fileToBase64, Except.map] at hv
    | logoInvoke h hbl hbv =>
      by_cases hd : s.logoDescription = ""
      · simpa [ArtifactInv, startLogoAttempt, hd] using ih
      · refine ⟨fun hv => ?_, fun hv => ?_⟩
        · simp [startLogoAttempt, hd] at hv
          simp [hbv] at hv
        · simp [startLogoAttempt, hd] at hv
    | logoFinish result h =>
      cases result with
      | ok b =>
        exact ⟨fun hv => by simp [finishLogo], fun hv => by simp [finishLogo]⟩
      | error m =>
        refine ⟨fun hv => ?_, fun hv => ?_⟩
        · simpa [finishLogo] using ih.1 (by simpa [finishLogo] using hv)
        · simpa [finishLogo] using ih.2 (by simpa [finishLogo] using hv)
    | videoInvoke h hbv hl =>
      have hln : s.logoImageBase64.isNone = false := by
        cases hsl : s.logoImageBase64 with
        | none => rw [hsl] at hl; simp at hl
        | some b => simp
      by_cases hp : s.animationPrompt = ""
      · simpa [ArtifactInv, startVideoAttempt, hln, hp] using ih
      · refine ⟨fun hv => ?_, fun hv => ?_⟩
        · simpa [startVideoAttempt, hln, hp] using hl
        · simp [startVideoAttempt, hln, hp] at hv
    | videoProgress m h => exact ih
    | videoFinish result h =>
      cases result with
      | ok url =>
        refine ⟨fun hv => ?_, fun hv => ?_⟩
        · simp [finishVideo] at hv
        · simpa [finishVideo] using ih.1 h
      | error m =>
        by_cases hc : containsSubstr m "Requested entity was not found"
        · refine ⟨fun hv => ?_, fun hv => ?_⟩
          · simp [finishVideo, hc] at hv
          · simpa [finishVideo, hc] using ih.2 (by simpa [finishVideo, hc] using hv)
        · refine ⟨fun hv => ?_, fun hv => ?_⟩
          · simp [finishVideo, hc] at hv
          · simpa [finishVideo, hc] using ih.2 (by simpa [finishVideo, hc] using hv)

/-- Status prefix of a trace starting with a status event. -/
theorem statusTexts_cons_status (m : String) (evs : List VideoEvent) :
    statusTexts (VideoEvent.status m :: evs) = m :: statusTexts evs := by
  simp [statusTexts]

/-- Wait times ignore a leading status event. -/
theorem waitTimes_cons_status (m : String) (evs : List VideoEvent) :
    waitTimes (VideoEvent.status m :: evs) = waitTimes evs := by
  simp [waitTimes]

/-- The initial message followed by the n-iteration poll trace yields
the first n + 1 messages of the cyclic schedule: call k carries message
k mod the list length. -/
theorem statusTexts_initial_pollTrace (n : Nat) :
    statusTexts (VideoEvent.status (loadingMessages.getD 0 "") :: pollTrace n 0) =
      (List.range (n + 1)).map
        (fun k => loadingMessages.getD (k % loadingMessages.length) "") := by
  rw [statusTexts_cons_status, statusTexts_pollTrace n 0, List.range_succ_eq_map,
    List.map_cons, List.map_map]
  refine congrArg₂ List.cons ?_ ?_
  · simp
  · refine List.map_congr_left ?_
    intro k _
    simp [Function.comp, Nat.zero_add]

/-- C1: in a run whose handle reports not done exactly n times before
completing, the status callback fires exactly n + 1 times during the
poll phase (one initial call, one per iteration), message k of the poll
phase is entry k mod length of the fixed message list, every wait is
the fixed 10000 ms interval (exactly n waits, none elsewhere), and when
the final handle carries a locator the poll phase is followed by
exactly the fetching message. -/
theorem video_status_callback_schedule
    (env : VideoEnv) (imageB64 prompt : String) (ar : AspectRatio) (n : Nat) (fin : Operation)
    (h : completesAfter (env.submit (mkVideoRequest imageB64 prompt ar)) env.pollResults n fin) :
    ∃ tail res,
      generateAnimatedVideo env imageB64 prompt ar =
        some (VideoEvent.status (loadingMessages.getD 0 "") :: (pollTrace n 0 ++ tail), res) ∧
      statusTexts (VideoEvent.status (loadingMessages.getD 0 "") :: pollTrace n 0) =
        (List.range (n + 1)).map
          (fun k => loadingMessages.getD (k % loadingMessages.length) "") ∧
      (statusTexts (VideoEvent.status (loadingMessages.getD 0 "") :: pollTrace n 0)).length
          = n + 1 ∧
      waitTimes (VideoEvent.status (loadingMessages.getD 0 "") :: (pollTrace n 0 ++ tail)) =
        List.replicate n 10000 ∧
      (fin.uri.isSome = true → tail = [VideoEvent.status "Fetching generated video..."]) ∧
      (fin.uri = none → tail = []) := by
  cases hu : fin.uri with
  | none =>
    refine ⟨[], Except.error (GenError.generationError
      "Video generation operation completed but no video URI was found."),
      ?_, statusTexts_initial_pollTrace n, ?_, ?_, ?_, fun _ => rfl⟩
    · simpa using generateAnimatedVideo_no_uri env imageB64 prompt ar n fin h hu
    · rw [statusTexts_initial_pollTrace n]
      simp
    · rw [waitTimes_cons_status]
      simpa using waitTimes_pollTrace n 0
    · intro hs
      simp at hs
  | some u =>
    refine ⟨[VideoEvent.status "Fetching generated video..."],
      if (env.fetch (u ++ "&key=" ++ env.apiKey)).ok then
        Except.ok (env.createObjectURL (env.fetch (u ++ "&key=" ++ env.apiKey)).blob)
      else
        Except.error (GenError.networkError
          ("Failed to download video: " ++ (env.fetch (u ++ "&key=" ++ env.apiKey)).statusText)),
      ?_, statusTexts_initial_pollTrace n, ?_, ?_, fun _ => rfl, ?_⟩
    · simpa using generateAnimatedVideo_uri env imageB64 prompt ar n fin u h hu
    · rw [statusTexts_initial_pollTrace n]
      simp
    · rw [waitTimes_cons_status]
      simp [waitTimes, List.filterMap_append] at *
      simpa [waitTimes] using waitTimes_pollTrace n 0
    · intro hnone
      simp at hnone

/-- Concrete environment whose operation reports not done twice and
then completes with a locator; the fetch succeeds. -/
def pollTwiceEnv : VideoEnv :=
  { submit := fun _ => { opDone := false, uri := none }
    pollResults := [{ opDone := false, uri := none },
                    { opDone := true, uri := some "http://video" }]
    fetch := fun _ => { ok := true, statusText := "OK", blob := "videobytes" }
    createObjectURL := fun b => "blob:" ++ b
    apiKey := "K" }

/-- Witness for C1: the two-poll portrait scenario. -/
theorem video_status_callback_schedule_witness :
    completesAfter (pollTwiceEnv.submit (mkVideoRequest "img" "fox winks" AspectRatio.r9x16))
        pollTwiceEnv.pollResults 2 { opDone := true, uri := some "http://video" } ∧
    (∃ tail res,
      generateAnimatedVideo pollTwiceEnv "img" "fox winks" AspectRatio.r9x16 =
        some (VideoEvent.status (loadingMessages.getD 0 "") :: (pollTrace 2 0 ++ tail), res) ∧
      statusTexts (VideoEvent.status (loadingMessages.getD 0 "") :: pollTrace 2 0) =
        (List.range (2 + 1)).map
          (fun k => loadingMessages.getD (k % loadingMessages.length) "") ∧
      (statusTexts (VideoEvent.status (loadingMessages.getD 0 "") :: pollTrace 2 0)).length
          = 2 + 1 ∧
      waitTimes (VideoEvent.status (loadingMessages.getD 0 "") :: (pollTrace 2 0 ++ tail)) =
        List.replicate 2 10000 ∧
      ((some "http://video" : Option String).isSome = true →
        tail = [VideoEvent.status "Fetching generated video..."]) ∧
      ((some "http://video" : Option String) = none → tail = [])) := by
  have hyp : completesAfter
      (pollTwiceEnv.submit (mkVideoRequest "img" "fox winks" AspectRatio.r9x16))
      pollTwiceEnv.pollResults 2 { opDone := true, uri := some "http://video" } :=
    ⟨rfl, { opDone := false, uri := none },
      [{ opDone := true, uri := some "http://video" }], rfl, rfl,
      { opDone := true, uri := some "http://video" }, [], rfl, rfl, rfl⟩
  exact ⟨hyp, video_status_callback_schedule pollTwiceEnv "img" "fox winks"
    AspectRatio.r9x16 2 { opDone := true, uri := some "http://video" } hyp⟩

/-- C9: when the operation completes with a locator and the direct
fetch of that locator returns an unsuccessful response, the run fails
with a NetworkError carrying the transport status text. -/
theorem video_fetch_failure_network_error
    (env : VideoEnv) (imageB64 prompt : String) (ar : AspectRatio) (n : Nat)
    (fin : Operation) (u : String)
    (h : completesAfter (env.submit (mkVideoRequest imageB64 prompt ar)) env.pollResults n fin)
    (hu : fin.uri = some u)
    (hok : (env.fetch (u ++ "&key=" ++ env.apiKey)).ok = false) :
    ∃ evs, generateAnimatedVideo env imageB64 prompt ar =
      some (evs, Except.error (GenError.networkError
        ("Failed to download video: " ++
          (env.fetch (u ++ "&key=" ++ env.apiKey)).statusText))) := by
  refine ⟨VideoEvent.status (loadingMessages.getD 0 "") ::
    pollTrace n 0 ++ [VideoEvent.status "Fetching generated video..."], ?_⟩
  rw [generateAnimatedVideo_uri env imageB64 prompt ar n fin u h hu]
  simp [hok]

/-- Concrete environment whose operation completes at once with a
locator but whose fetch fails. -/
def fetchFailEnv : VideoEnv :=
  { submit := fun _ => { opDone := true, uri := some "http://video" }
    pollResults := []
    fetch := fun _ => { ok := false, statusText := "Forbidden", blob := "" }
    createObjectURL := fun b => "blob:" ++ b
    apiKey := "K" }

/-- Witness for C9: a failed download surfaces the status text. -/
theorem video_fetch_failure_network_error_witness :
    completesAfter (fetchFailEnv.submit (mkVideoRequest "img" "spin" AspectRatio.r16x9))
        fetchFailEnv.pollResults 0 { opDone := true, uri := some "http://video" } ∧
    (some "http://video" : Option String) = some "http://video" ∧
    (fetchFailEnv.fetch ("http://video" ++ "&key=" ++ fetchFailEnv.apiKey)).ok = false ∧
    (∃ evs, generateAnimatedVideo fetchFailEnv "img" "spin" AspectRatio.r16x9 =
      some (evs, Except.error (GenError.networkError
        ("Failed to download video: " ++
          (fetchFailEnv.fetch ("http://video" ++ "&key=" ++ fetchFailEnv.apiKey)).statusText)))) :=
  ⟨⟨rfl, rfl⟩, rfl, rfl,
    video_fetch_failure_network_error fetchFailEnv "img" "spin" AspectRatio.r16x9 0
      { opDone := true, uri := some "http://video" } "http://video" ⟨rfl, rfl⟩ rfl rfl⟩

/-- C10: an upload event carrying no file leaves the whole controller
state unchanged: no error is set or cleared, and both artifacts are
retained. -/
theorem upload_no_file_noop (s : AppState) : handleImageUpload s none = s := rfl

/-- C5 counterexample: a service response with one image whose bytes
are empty makes generateLogoImage return the empty string as a
success, for a non-empty description. -/
theorem generateLogoImage_empty_success_counterexample :
    generateLogoImage (fun _ => { generatedImages := some [{ imageBytes := "" }] })
        "a minimalist fox icon" = Except.ok "" ∧
    "a minimalist fox icon" ≠ "" :=
  ⟨rfl, by decide⟩

/-- C5 (amended): for every non-empty description, generateLogoImage
signals the GenerationError exactly when the service response carries
zero images (an absent or empty image list), and otherwise returns the
first image bytes unchanged — which is non-empty exactly when the
service bytes are. -/
theorem generateLogoImage_result (api : ImageRequest → ImagesResponse)
    (description : String) (_hne : description ≠ "") :
    (generateLogoImage api description =
        Except.error (GenError.generationError "Image generation failed.") ↔
      ((api (mkImageRequest description)).generatedImages = none ∨
       (api (mkImageRequest description)).generatedImages = some [])) ∧
    (∀ img rest, (api (mkImageRequest description)).generatedImages = some (img :: rest) →
      generateLogoImage api description = Except.ok img.imageBytes) := by
  constructor
  · unfold generateLogoImage
    cases hi : (api (mkImageRequest description)).generatedImages with
    | none => simp
    | some l =>
      cases l with
      | nil => simp
      | cons a t => simp
  · intro img rest hi
    unfold generateLogoImage
    rw [hi]

/-- Concrete image service returning one non-empty image. -/
def oneImageApi : ImageRequest → ImagesResponse :=
  fun _ => { generatedImages := some [{ imageBytes := "PNGBYTES" }] }

/-- Witness for C5 (amended) at a one-image service. -/
theorem generateLogoImage_result_witness :
    "a minimalist fox" ≠ "" ∧
    ((generateLogoImage oneImageApi "a minimalist fox" =
        Except.error (GenError.generationError "Image generation failed.") ↔
      ((oneImageApi (mkImageRequest "a minimalist fox")).generatedImages = none ∨
       (oneImageApi (mkImageRequest "a minimalist fox")).generatedImages = some [])) ∧
     (∀ img rest,
        (oneImageApi (mkImageRequest "a minimalist fox")).generatedImages = some (img :: rest) →
        generateLogoImage oneImageApi "a minimalist fox" = Except.ok img.imageBytes)) :=
  ⟨by decide, generateLogoImage_result oneImageApi "a minimalist fox" (by decide)⟩

/-- Controller state holding both a logo and a previously generated
video, with a pending prompt. -/
def videoReadyState : AppState :=
  { apiKeySelected := true
    logoDescription := "a fox"
    animationPrompt := "wink"
    aspect := AspectRatio.r9x16
    logoImageBase64 := some "LOGO"
    generatedVideoUrl := some "blob:firstvideo"
    isGeneratingLogo := false
    isGeneratingVideo := false
    videoStatus := ""
    error := none }

/-- C4 counterexample: a failed read surfaces the error text and keeps
the logo, but the video artifact held before the attempt is cleared
rather than left exactly as it was. -/
theorem upload_read_failure_counterexample :
    videoReadyState.generatedVideoUrl = some "blob:firstvideo" ∧
    (handleImageUpload videoReadyState (some (Except.error "read failed"))).generatedVideoUrl
        = none ∧
    (handleImageUpload videoReadyState (some (Except.error "read failed"))).logoImageBase64
        = videoReadyState.logoImageBase64 ∧
    (handleImageUpload videoReadyState (some (Except.error "read failed"))).error
        = some "Failed to read image file." :=
  ⟨rfl, rfl, rfl, rfl⟩

/-- C4 (amended): a failed read sets exactly the read-error text and
clears the video artifact — the handler clears it before reading — and
leaves every other field, in particular the logo artifact, unchanged. -/
theorem upload_read_failure_state (s : AppState) (e : String) :
    handleImageUpload s (some (Except.error e)) =
      { s with error := some "Failed to read image file.", generatedVideoUrl := none } := rfl

/-- C7: with no logo artifact or an empty prompt the animation handler
issues no remote call, sets only a validation error, and leaves every
other field — both artifacts in particular — unchanged. -/
theorem video_guards_block_remote_call (s : AppState) (r : Except String String)
    (h : s.logoImageBase64 = none ∨ s.animationPrompt = "") :
    (handleGenerateVideo s r).2 = false ∧
    (∃ msg, (handleGenerateVideo s r).1 = { s with error := some msg }) ∧
    (handleGenerateVideo s r).1.logoImageBase64 = s.logoImageBase64 ∧
    (handleGenerateVideo s r).1.generatedVideoUrl = s.generatedVideoUrl := by
  by_cases hl : s.logoImageBase64 = none
  · have hn : s.logoImageBase64.isNone = true := by simp [hl]
    refine ⟨?_, ⟨"Please generate or upload a logo first.", ?_⟩, ?_, ?_⟩ <;>
      simp [handleGenerateVideo, startVideoAttempt, hn]
  · have hp : s.animationPrompt = "" := h.resolve_left hl
    obtain ⟨b, hb⟩ := Option.ne_none_iff_exists'.mp hl
    refine ⟨?_, ⟨"Please enter a prompt for the animation.", ?_⟩, ?_, ?_⟩ <;>
      simp [handleGenerateVideo, startVideoAttempt, hb, hp]

/-- Witness for C7 at the initial state (no logo selected yet). -/
theorem video_guards_block_remote_call_witness :
    ((initState true).logoImageBase64 = none ∨ (initState true).animationPrompt = "") ∧
    ((handleGenerateVideo (initState true) (Except.ok "blob:v")).2 = false ∧
     (∃ msg, (handleGenerateVideo (initState true) (Except.ok "blob:v")).1 =
        { initState true with error := some msg }) ∧
     (handleGenerateVideo (initState true) (Except.ok "blob:v")).1.logoImageBase64 =
        (initState true).logoImageBase64 ∧
     (handleGenerateVideo (initState true) (Except.ok "blob:v")).1.generatedVideoUrl =
        (initState true).generatedVideoUrl) :=
  ⟨Or.inl rfl,
    video_guards_block_remote_call (initState true) (Except.ok "blob:v") (Or.inl rfl)⟩

/-- C2 counterexample: on a credential-rejected failure the gate is
invalidated as claimed, but a video artifact held before the run is
cleared rather than left unchanged. -/
theorem credential_error_counterexample :
    videoReadyState.generatedVideoUrl = some "blob:firstvideo" ∧
    (handleGenerateVideo videoReadyState
        (Except.error "Requested entity was not found")).1.apiKeySelected = false ∧
    (handleGenerateVideo videoReadyState
        (Except.error "Requested entity was not found")).1.generatedVideoUrl = none := by
  refine ⟨rfl, ?_, ?_⟩ <;> decide

/-- C2 (amended): a video-generation failure whose message contains the
entity-not-found marker resets the credential gate, keeps the logo and
sets the fixed re-selection hint text; the video artifact is absent
afterwards because the handler cleared it when the run started, so a
previous video does not survive.  Every other failure sets only the
prefixed error text and leaves the gate as it was. -/
theorem credential_error_mapping (s : AppState) (b m : String)
    (hl : s.logoImageBase64 = some b) (hp : s.animationPrompt ≠ "") :
    (containsSubstr m "Requested entity was not found" = true →
      ((handleGenerateVideo s (Except.error m)).1.apiKeySelected = false ∧
       (handleGenerateVideo s (Except.error m)).1.error =
          some "API Key not found or invalid. Please re-select your API Key." ∧
       containsSubstr "API Key not found or invalid. Please re-select your API Key."
          "re-select" = true ∧
       (handleGenerateVideo s (Except.error m)).1.generatedVideoUrl = none ∧
       (handleGenerateVideo s (Except.error m)).1.logoImageBase64 = s.logoImageBase64)) ∧
    (containsSubstr m "Requested entity was not found" = false →
      ((handleGenerateVideo s (Except.error m)).1.apiKeySelected = s.apiKeySelected ∧
       (handleGenerateVideo s (Except.error m)).1.error =
          some ("Video generation failed: " ++ m) ∧
       (handleGenerateVideo s (Except.error m)).1.generatedVideoUrl = none ∧
       (handleGenerateVideo s (Except.error m)).1.logoImageBase64 = s.logoImageBase64)) := by
  have hn : s.logoImageBase64.isNone = false := by simp [hl]
  constructor
  · intro hc
    refine ⟨?_, ?_, by decide, ?_, ?_⟩ <;>
      simp [handleGenerateVideo, startVideoAttempt, finishVideo, hn, hp, hc]
  · intro hc
    refine ⟨?_, ?_, ?_, ?_⟩ <;>
      simp [handleGenerateVideo, startVideoAttempt, finishVideo, hn, hp, hc]

/-- Witness for C2 (amended): the credential-rejected message resets
the gate from the video-ready state. -/
theorem credential_error_mapping_witness :
    videoReadyState.logoImageBase64 = some "LOGO" ∧
    videoReadyState.animationPrompt ≠ "" ∧
    containsSubstr "Requested entity was not found" "Requested entity was not found" = true ∧
    ((handleGenerateVideo videoReadyState
        (Except.error "Requested entity was not found")).1.apiKeySelected = false ∧
     (handleGenerateVideo videoReadyState
        (Except.error "Requested entity was not found")).1.error =
          some "API Key not found or invalid. Please re-select your API Key." ∧
     containsSubstr "API Key not found or invalid. Please re-select your API Key."
        "re-select" = true ∧
     (handleGenerateVideo videoReadyState
        (Except.error "Requested entity was not found")).1.generatedVideoUrl = none ∧
     (handleGenerateVideo videoReadyState
        (Except.error "Requested entity was not found")).1.logoImageBase64 =
          videoReadyState.logoImageBase64) :=
  ⟨rfl, by decide, by decide,
    (credential_error_mapping videoReadyState "LOGO" "Requested entity was not found"
      rfl (by decide)).1 (by decide)⟩

/-- Controller state in LogoReady with no prior video. -/
def logoReadyState : AppState :=
  { apiKeySelected := true
    logoDescription := "a fox"
    animationPrompt := ""
    aspect := AspectRatio.r16x9
    logoImageBase64 := some "LOGO"
    generatedVideoUrl := none
    isGeneratingLogo := false
    isGeneratingVideo := false
    videoStatus := ""
    error := none }

/-- C3 counterexample: a logo-generation failure entered from LogoReady
does not return to LogoReady — the handler cleared the logo when the
attempt started, so the failed attempt lands in NoLogo. -/
theorem logo_failure_stage_counterexample :
    stage logoReadyState = Stage.LogoReady ∧
    stage (handleGenerateLogo logoReadyState (Except.error "quota exceeded")).1 =
      Stage.NoLogo := by
  refine ⟨?_, ?_⟩ <;> decide

/-- C3 (amended): every remote failure is absorbed by its handler and
clears its busy flag; a video failure returns to LogoReady with the
video cleared and an error set; a logo failure sets the prefixed error
and lands in NoLogo (both artifacts were cleared when the attempt
started), which coincides with the pre-attempt stage only when no logo
was present. -/
theorem remote_failure_recovery (s : AppState) (b m : String)
    (hl : s.logoImageBase64 = some b) (hp : s.animationPrompt ≠ "")
    (hd : s.logoDescription ≠ "")
    (hgl : s.isGeneratingLogo = false) (hgv : s.isGeneratingVideo = false) :
    ((handleGenerateVideo s (Except.error m)).1.isGeneratingVideo = false ∧
     (handleGenerateVideo s (Except.error m)).1.generatedVideoUrl = none ∧
     (handleGenerateVideo s (Except.error m)).1.error.isSome = true ∧
     stage (handleGenerateVideo s (Except.error m)).1 = Stage.LogoReady) ∧
    ((handleGenerateLogo s (Except.error m)).1.isGeneratingLogo = false ∧
     (handleGenerateLogo s (Except.error m)).1.error =
        some ("Logo generation failed: " ++ m) ∧
     stage (handleGenerateLogo s (Except.error m)).1 = Stage.NoLogo) := by
  have hn : s.logoImageBase64.isNone = false := by simp [hl]
  constructor
  · by_cases hc : containsSubstr m "Requested entity was not found" = true
    · refine ⟨?_, ?_, ?_, ?_⟩ <;>
        simp [handleGenerateVideo, startVideoAttempt, finishVideo, stage, hn, hp, hc, hgl, hl]
    · refine ⟨?_, ?_, ?_, ?_⟩ <;>
        simp [handleGenerateVideo, startVideoAttempt, finishVideo, stage, hn, hp, hc, hgl, hl]
  · refine ⟨?_, ?_, ?_⟩ <;>
      simp [handleGenerateLogo, startLogoAttempt, finishLogo, stage, hd, hgv]

/-- Witness for C3 (amended) from the video-ready state. -/
theorem remote_failure_recovery_witness :
    videoReadyState.logoImageBase64 = some "LOGO" ∧
    videoReadyState.animationPrompt ≠ "" ∧
    videoReadyState.logoDescription ≠ "" ∧
    videoReadyState.isGeneratingLogo = false ∧
    videoReadyState.isGeneratingVideo = false ∧
    stage (handleGenerateLogo videoReadyState (Except.error "quota exceeded")).1 =
      Stage.NoLogo :=
  ⟨rfl, by decide, by decide, rfl, rfl,
    (remote_failure_recovery videoReadyState "LOGO" "quota exceeded" rfl (by decide)
      (by decide) rfl rfl).2.2.2⟩

/-- C6: when the operation completes without a locator the run fails
with the completed-but-no-result GenerationError, never yields a video
URL, and the controller lands in LogoReady with the video artifact
absent and the prefixed error text set. -/
theorem video_no_locator_reverts (s : AppState) (b : String) (env : VideoEnv)
    (n : Nat) (fin : Operation)
    (hl : s.logoImageBase64 = some b) (hp : s.animationPrompt ≠ "")
    (hgl : s.isGeneratingLogo = false)
    (h : completesAfter (env.submit (mkVideoRequest (s.logoImageBase64.getD "")
        s.animationPrompt s.aspect)) env.pollResults n fin)
    (hu : fin.uri = none) :
    (∀ tr url,
      generateAnimatedVideo env (s.logoImageBase64.getD "") s.animationPrompt s.aspect ≠
        some (tr, Except.ok url)) ∧
    ∃ s2, runGenerateVideo s env = some (s2, true) ∧
      s2.error = some ("Video generation failed: " ++
        "Video generation operation completed but no video URI was found.") ∧
      s2.generatedVideoUrl = none ∧
      s2.logoImageBase64 = s.logoImageBase64 ∧
      stage s2 = Stage.LogoReady := by
  have hgav := generateAnimatedVideo_no_uri env (s.logoImageBase64.getD "")
    s.animationPrompt s.aspect n fin h hu
  have hn : s.logoImageBase64.isNone = false := by simp [hl]
  have hcm : containsSubstr "Video generation operation completed but no video URI was found."
      "Requested entity was not found" = false := by decide
  constructor
  · intro tr url
    rw [hgav]
    simp
  · refine ⟨finishVideo
      { s with error := none, isGeneratingVideo := true, generatedVideoUrl := none }
      (Except.error "Video generation operation completed but no video URI was found."),
      ?_, ?_, ?_, ?_, ?_⟩
    · simp [runGenerateVideo, startVideoAttempt, hn, hp, hgav, GenError.message]
    · simp [finishVideo, hcm]
    · simp [finishVideo, hcm]
    · simp [finishVideo, hcm]
    · simp [stage, finishVideo, hcm, hgl, hl]

/-- Concrete environment whose operation completes at once without a
locator. -/
def noUriEnv : VideoEnv :=
  { submit := fun _ => { opDone := true, uri := none }
    pollResults := []
    fetch := fun _ => { ok := true, statusText := "OK", blob := "" }
    createObjectURL := fun b => "blob:" ++ b
    apiKey := "K" }

/-- Witness for C6 from the video-ready state. -/
theorem video_no_locator_reverts_witness :
    videoReadyState.logoImageBase64 = some "LOGO" ∧
    videoReadyState.animationPrompt ≠ "" ∧
    (∃ s2, runGenerateVideo videoReadyState noUriEnv = some (s2, true) ∧
      s2.error = some ("Video generation failed: " ++
        "Video generation operation completed but no video URI was found.") ∧
      s2.generatedVideoUrl = none ∧
      s2.logoImageBase64 = videoReadyState.logoImageBase64 ∧
      stage s2 = Stage.LogoReady) :=
  ⟨rfl, by decide,
    (video_no_locator_reverts videoReadyState "LOGO" noUriEnv 0
      { opDone := true, uri := none } rfl (by decide) rfl ⟨rfl, rfl⟩ rfl).2⟩

/-- Reachable state in which the logo and the video busy flags are both
set: a logo generation is started, an upload completes while it is in
flight, and the re-enabled animation trigger is pressed. -/
def bothBusyState : AppState :=
  { apiKeySelected := true
    logoDescription := "a fox"
    animationPrompt := "wink"
    aspect := AspectRatio.r16x9
    logoImageBase64 := some "UPLOADED2"
    generatedVideoUrl := none
    isGeneratingLogo := true
    isGeneratingVideo := true
    videoStatus := ""
    error := none }

/-- C8 counterexample: the two busy flags are not mutually exclusive in
every reachable state — the upload input stays enabled during a logo
generation and the video trigger does not check the logo busy flag. -/
theorem busy_flags_counterexample :
    Reachable bothBusyState ∧
    bothBusyState.isGeneratingLogo = true ∧ bothBusyState.isGeneratingVideo = true := by
  refine ⟨?_, rfl, rfl⟩
  have h0 : Reachable (initState true) := Reachable.init true
  have h1 := Reachable.step h0 (Step.upload (initState true)
    (some (Except.ok "data:image/png;base64,UPLOADED1")) rfl
    (by intro d hd
        simp only [Option.some.injEq, Except.ok.injEq] at hd
        subst hd
        decide))
  have h2 := Reachable.step h1 (Step.setPrompt _ "wink" (by decide) (by decide))
  have h3 := Reachable.step h2 (Step.setDescription _ "a fox" (by decide))
  have h4 := Reachable.step h3 (Step.logoInvoke _ (by decide) (by decide) (by decide))
  have h5 := Reachable.step h4 (Step.upload _
    (some (Except.ok "data:image/png;base64,UPLOADED2")) (by decide)
    (by intro d hd
        simp only [Option.some.injEq, Except.ok.injEq] at hd
        subst hd
        decide))
  have h6 := Reachable.step h5 (Step.videoInvoke _ (by decide) (by decide) (by decide))
  exact h6

/-- C8 (amended): in every reachable controller state a present video
artifact — and an in-flight video generation — implies a present logo
artifact; the busy-flag mutual exclusion, by contrast, does not hold in
every reachable state. -/
theorem reachable_video_requires_logo (s : AppState) (h : Reachable s) :
    (s.generatedVideoUrl.isSome = true → s.logoImageBase64.isSome = true) ∧
    (s.isGeneratingVideo = true → s.logoImageBase64.isSome = true) := by
  have hi := reachable_artifactInv h
  exact ⟨hi.2, hi.1⟩

/-- Witness for C8 (amended) at the initial state. -/
theorem reachable_video_requires_logo_witness :
    Reachable (initState true) ∧
    (((initState true).generatedVideoUrl.isSome = true →
        (initState true).logoImageBase64.isSome = true) ∧
     ((initState true).isGeneratingVideo = true →
        (initState true).logoImageBase64.isSome = true)) :=
  ⟨Reachable.init true,
    reachable_video_requires_logo (initState true) (Reachable.init true)⟩

end LogoAnimator
